import Mathlib

/-!
Shallow embedding of `src/material/datepicker/datepicker-base.ts`
(`MatDatepickerBase` and its helpers), for checking the component-level
contract of the datepicker open/close/focus state machine.

Modelling conventions:
* The mutable fields of a `MatDatepickerBase` instance become the record
  `DatepickerState`; each method becomes a function from state to state.
* Overlay references, dialog references and component references are
  represented by numeric handles allocated from the `nextHandle` counter;
  `none` models a `null`/`undefined` reference.
* Side effects that cross the component boundary (emitting on the
  `opened`/`closed` streams, calling `focus()`, creating or disposing
  overlays and dialogs) are recorded in an event list.
* A thrown `Error` is recorded in the `thrown` field of the result; as in
  JavaScript, mutations made before the throw stay in place (here: none).
* The asynchronous `setTimeout(completeClose)` in `close()` is modelled by
  the `deferredCompleteClose` flag of the result: when it is set, the state
  transition of `completeClose` has NOT been applied synchronously and
  happens in a later tick (the `Action.closeTimeout` step below).
* For auditing the at-most-one-live-handle invariant, the ghost fields
  `liveOverlays`/`liveDialogs` track the handles that have been created and
  not yet disposed (popups) or closed (dialogs).
-/

/-- Keycode of the Escape key, from `@angular/cdk/keycodes`. -/
def ESCAPE : Nat := 27

/-- Keycode of the up-arrow key, from `@angular/cdk/keycodes`. -/
def UP_ARROW : Nat := 38

/-- The relevant observable pieces of the `MatDatepickerControl` interface:
the registered input's `disabled` flag and the element returned by
`getConnectedOverlayOrigin()` (represented by a numeric element id). -/
structure MatDatepickerControl where
  ctrlId : Nat
  disabled : Bool
  connectedOverlayOrigin : Nat
deriving DecidableEq, Repr

/-- A DOM element as far as the datepicker observes it: an identity and
whether `typeof element.focus === 'function'` holds. -/
structure HtmlElement where
  elemId : Nat
  hasFocusFn : Bool
deriving DecidableEq, Repr

/-- One entry of the position list passed to `withPositions` (a CDK
`ConnectedPosition` with its four anchoring coordinates). -/
structure ConnectedPosition where
  originX : String
  originY : String
  overlayX : String
  overlayY : String
deriving DecidableEq, Repr

/-- The popup position strategy built by `_createPopupPositionStrategy`:
`flexibleConnectedTo` the anchor element, plus the values set by the
builder chain (`withTransformOriginOn`, `withFlexibleDimensions`,
`withViewportMargin`, `withLockedPosition`, `withPositions`). -/
structure PopupPositionStrategy where
  origin : Nat
  transformOriginOn : String
  flexibleDimensions : Bool
  viewportMargin : Nat
  lockedPosition : Bool
  positions : List ConnectedPosition
deriving DecidableEq, Repr

/-- The parts of the `OverlayConfig` built in `_createPopup` that the
embedding tracks (the scroll strategy and direction are opaque injected
collaborators and are not modelled). -/
structure OverlayConfig where
  positionStrategy : PopupPositionStrategy
  hasBackdrop : Bool
  backdropCssClass : String
  panelCssClass : String
deriving DecidableEq, Repr

/-- Externally visible effects of the datepicker, in program order. -/
inductive DatepickerEvent where
  /-- `openedStream.emit()` -/
  | openedEmit : DatepickerEvent
  /-- `closedStream.emit()` -/
  | closedEmit : DatepickerEvent
  /-- `this._focusedElementBeforeOpen.focus()` on the given element -/
  | focusRestored (elemId : Nat) : DatepickerEvent
  /-- `instance._startExitAnimation()` on the popup content -/
  | exitAnimationStarted : DatepickerEvent
  /-- `this._dialog.open(...)` returned the dialog with this handle -/
  | dialogOpened (h : Nat) : DatepickerEvent
  /-- `dialogRef.close()` on the dialog with this handle -/
  | dialogClosed (h : Nat) : DatepickerEvent
  /-- `this._overlay.create(overlayConfig)` returned this overlay handle -/
  | popupCreated (h : Nat) : DatepickerEvent
  /-- `this._popupRef.dispose()` on the overlay with this handle -/
  | popupDisposed (h : Nat) : DatepickerEvent
  /-- `_ngZone.onStable...pipe(take(1)).subscribe(() => updatePosition())`:
  a one-shot position re-measurement was scheduled for this overlay -/
  | scheduledUpdatePositionOnStable (h : Nat) : DatepickerEvent
  /-- `event.preventDefault()` on the dismissal trigger event -/
  | preventDefault : DatepickerEvent
deriving DecidableEq, Repr

/-- The mutable state of one `MatDatepickerBase` instance. -/
structure DatepickerState where
  /-- backing field of the `opened` property -/
  _opened : Bool
  /-- backing field of the `touchUi` property (already coerced to boolean) -/
  _touchUi : Bool
  /-- backing field of the `disabled` property; `none` models `undefined` -/
  _disabled : Option Bool
  /-- the registered input, `none` before `_registerInput` succeeds -/
  _datepickerInput : Option MatDatepickerControl
  /-- `_popupRef`, the overlay handle when opened as a popup -/
  _popupRef : Option Nat
  /-- `_dialogRef`, the dialog handle when opened as a dialog -/
  _dialogRef : Option Nat
  /-- `_popupComponentRef`, the content component in popup mode -/
  _popupComponentRef : Option Nat
  /-- `_focusedElementBeforeOpen` -/
  _focusedElementBeforeOpen : Option HtmlElement
  /-- `this._document && this._document.activeElement`: the active element
  of the injected document, `none` when no document was injected -/
  _documentActiveElement : Option HtmlElement
  /-- identity of the injected `MatDateSelectionModel` (`this._model`) -/
  _model : Nat
  /-- fresh-handle counter for newly created overlays/dialogs/components -/
  nextHandle : Nat
  /-- ghost: overlay handles created and not yet disposed -/
  liveOverlays : List Nat
  /-- ghost: dialog handles opened and not yet closed -/
  liveDialogs : List Nat
  /-- ghost: the `OverlayConfig` of the most recently created popup -/
  popupConfig : Option OverlayConfig
deriving DecidableEq, Repr

/-- Result of calling a datepicker method: the state after the call, the
events it emitted, the message of a thrown `Error` (if any), and whether a
`completeClose` continuation was deferred with `setTimeout`. -/
structure StepResult where
  state : DatepickerState
  events : List DatepickerEvent
  thrown : Option String
  deferredCompleteClose : Bool
deriving DecidableEq, Repr

namespace MatDatepickerBase

/-- The `disabled` getter:
`this._disabled === undefined && this._datepickerInput ?
 this._datepickerInput.disabled : !!this._disabled`. -/
def disabled (s : DatepickerState) : Bool :=
  match s._disabled, s._datepickerInput with
  | none, some input => input.disabled
  | some d, _ => d
  | none, none => false

/-- The message of the `Error` thrown by a second `_registerInput` call. -/
def registerSecondInputMsg : String :=
  "A MatDatepicker can only be associated with a single input."

/-- `_registerInput`: rejects a second registration, otherwise stores the
input and returns the shared selection model. The result is the state, the
returned selection model (when no error was thrown) and the thrown error. -/
def _registerInput (s : DatepickerState) (input : MatDatepickerControl) :
    DatepickerState × Option Nat × Option String :=
  match s._datepickerInput with
  | some _ => (s, none, some registerSecondInputMsg)
  | none => ({ s with _datepickerInput := some input }, some s._model, none)

/-- `_createPopupPositionStrategy`, applied to the registered input (the
source reads `this._datepickerInput.getConnectedOverlayOrigin()`; `open`
guarantees an input is present before any popup is created). -/
def _createPopupPositionStrategy (input : MatDatepickerControl) : PopupPositionStrategy :=
  { origin := input.connectedOverlayOrigin
    transformOriginOn := ".mat-datepicker-content"
    flexibleDimensions := false
    viewportMargin := 8
    lockedPosition := true
    positions :=
      [ { originX := "start", originY := "bottom", overlayX := "start", overlayY := "top" }
      , { originX := "start", originY := "top", overlayX := "start", overlayY := "bottom" }
      , { originX := "end", originY := "bottom", overlayX := "end", overlayY := "top" }
      , { originX := "end", originY := "top", overlayX := "end", overlayY := "bottom" } ] }

/-- `_destroyPopup`: dispose the popup overlay if there is one and clear
both the overlay and the component references. -/
def _destroyPopup (s : DatepickerState) : DatepickerState × List DatepickerEvent :=
  match s._popupRef with
  | some h =>
      ({ s with
          _popupRef := none
          _popupComponentRef := none
          liveOverlays := s.liveOverlays.erase h }, [DatepickerEvent.popupDisposed h])
  | none => (s, [])

/-- `_createPopup`: build the `OverlayConfig` and create the overlay, and
subscribe the dismissal handler (backdrop click, detachments, filtered
keydown events) to it. -/
def _createPopup (input : MatDatepickerControl) (s : DatepickerState) :
    DatepickerState × List DatepickerEvent :=
  let overlayConfig : OverlayConfig :=
    { positionStrategy := _createPopupPositionStrategy input
      hasBackdrop := true
      backdropCssClass := "mat-overlay-transparent-backdrop"
      panelCssClass := "mat-datepicker-popup" }
  let h := s.nextHandle
  ({ s with
      _popupRef := some h
      nextHandle := h + 1
      liveOverlays := s.liveOverlays ++ [h]
      popupConfig := some overlayConfig }, [DatepickerEvent.popupCreated h])

/-- `_openAsPopup`: destroy any previous popup, create a new one, attach
the content portal, and schedule one position update for when the zone
stabilizes (`onStable ... take(1)`). -/
def _openAsPopup (input : MatDatepickerControl) (s : DatepickerState) :
    DatepickerState × List DatepickerEvent :=
  let d := _destroyPopup s
  let c := _createPopup input d.1
  let comp := c.1.nextHandle
  let s3 := { c.1 with _popupComponentRef := some comp, nextHandle := comp + 1 }
  let h := c.1._popupRef.getD 0
  (s3, d.2 ++ c.2 ++ [DatepickerEvent.scheduledUpdatePositionOnStable h])

/-- `_openAsDialog`: close a dialog that slipped through the re-entrancy
guards, then open a fresh modal dialog and store its reference. -/
def _closeExistingDialog (s : DatepickerState) : DatepickerState × List DatepickerEvent :=
  match s._dialogRef with
  | some h => ({ s with liveDialogs := s.liveDialogs.erase h }, [DatepickerEvent.dialogClosed h])
  | none => (s, [])

def _openAsDialog (s : DatepickerState) : DatepickerState × List DatepickerEvent :=
  let p := _closeExistingDialog s
  let h := p.1.nextHandle
  ({ p.1 with
      _dialogRef := some h
      nextHandle := h + 1
      liveDialogs := p.1.liveDialogs ++ [h] }, p.2 ++ [DatepickerEvent.dialogOpened h])

/-- The `if (this._dialogRef) { this._dialogRef.close(); this._dialogRef = null; }`
step of `close()`. -/
def _closeOwnDialog (s : DatepickerState) : DatepickerState × List DatepickerEvent :=
  match s._dialogRef with
  | some h =>
      ({ s with _dialogRef := none, liveDialogs := s.liveDialogs.erase h },
       [DatepickerEvent.dialogClosed h])
  | none => (s, [])

/-- The `completeClose` closure inside `close()`: if the datepicker is
still marked open, mark it closed, emit on the `closed` stream and clear
the recorded previously-focused element. -/
def completeClose (s : DatepickerState) : DatepickerState × List DatepickerEvent :=
  if s._opened then
    ({ s with _opened := false, _focusedElementBeforeOpen := none },
     [DatepickerEvent.closedEmit])
  else (s, [])

/-- The `if (this._document) { this._focusedElementBeforeOpen =
this._document.activeElement; }` step of `open()`. -/
def recordFocusedElement (s : DatepickerState) : DatepickerState :=
  match s._documentActiveElement with
  | some el => { s with _focusedElementBeforeOpen := some el }
  | none => s

/-- The message of the `Error` thrown by `open()` without an input. -/
def openNoInputMsg : String :=
  "Attempted to open an MatDatepicker with no associated input."

/-- `open()`: no-op when already open or disabled; throws when no input is
registered; otherwise records the active element, opens as dialog or popup
according to `touchUi`, sets `_opened` and emits on the `opened` stream. -/
def «open» (s : DatepickerState) : StepResult :=
  if s._opened || disabled s then
    { state := s, events := [], thrown := none, deferredCompleteClose := false }
  else
    match s._datepickerInput with
    | none =>
        { state := s, events := []
          thrown := some openNoInputMsg
          deferredCompleteClose := false }
    | some input =>
        let s1 := recordFocusedElement s
        let p := if s1._touchUi then _openAsDialog s1 else _openAsPopup input s1
        { state := { p.1 with _opened := true }
          events := p.2 ++ [DatepickerEvent.openedEmit]
          thrown := none
          deferredCompleteClose := false }

/-- `close()`: no-op when already closed; starts the popup exit animation
(the actual `_destroyPopup` runs when the animation-done event fires),
closes the dialog, restores focus to the previously-focused element and —
when a focus call was made — defers `completeClose` with `setTimeout`. -/
def close (s : DatepickerState) : StepResult :=
  if !s._opened then
    { state := s, events := [], thrown := none, deferredCompleteClose := false }
  else
    let evs1 : List DatepickerEvent :=
      if s._popupComponentRef.isSome && s._popupRef.isSome then
        [DatepickerEvent.exitAnimationStarted]
      else []
    let p := _closeOwnDialog s
    match p.1._focusedElementBeforeOpen with
    | some el =>
        if el.hasFocusFn then
          { state := p.1
            events := evs1 ++ p.2 ++ [DatepickerEvent.focusRestored el.elemId]
            thrown := none
            deferredCompleteClose := true }
        else
          let q := completeClose p.1
          { state := q.1, events := evs1 ++ p.2 ++ q.2, thrown := none
            deferredCompleteClose := false }
    | none =>
        let q := completeClose p.1
        { state := q.1, events := evs1 ++ p.2 ++ q.2, thrown := none
          deferredCompleteClose := false }

/-- The `opened` property setter: `value ? this.open() : this.close()`. -/
def setOpened (s : DatepickerState) (value : Bool) : StepResult :=
  if value then «open» s else close s

/-- A dismissal trigger observed by the merged subscription installed in
`_createPopup`: a backdrop click, an overlay detachment, or a keydown
event (with its keycode and alt-modifier state). -/
inductive DismissalTrigger where
  | backdropClick : DismissalTrigger
  | detachment : DismissalTrigger
  | keydown (keyCode : Nat) (altKey : Bool) : DismissalTrigger
deriving DecidableEq, Repr

/-- The keydown filter in `_createPopup`: Escape always passes; Alt+Up
passes only when an input is registered with the datepicker. -/
def popupKeydownClosesPicker (s : DatepickerState) (keyCode : Nat) (altKey : Bool) : Bool :=
  keyCode == ESCAPE || (s._datepickerInput.isSome && altKey && keyCode == UP_ARROW)

/-- The subscriber installed in `_createPopup` on the merge of
`backdropClick()`, `detachments()` and the filtered `keydownEvents()`:
`preventDefault()` on truthy events (detachments emit `undefined`), then
`close()`. A keydown rejected by the filter never reaches the subscriber,
so it leaves the state untouched and emits nothing. -/
def _popupStreamHandler (s : DatepickerState) (t : DismissalTrigger) : StepResult :=
  match t with
  | DismissalTrigger.backdropClick =>
      let r := close s
      { r with events := DatepickerEvent.preventDefault :: r.events }
  | DismissalTrigger.detachment => close s
  | DismissalTrigger.keydown keyCode altKey =>
      if popupKeydownClosesPicker s keyCode altKey then
        let r := close s
        { r with events := DatepickerEvent.preventDefault :: r.events }
      else
        { state := s, events := [], thrown := none, deferredCompleteClose := false }

/-- A freshly constructed datepicker (all references `null`, not opened),
with the given `touchUi` flag, selection model and injected document. -/
def mkDatepicker (touchUi : Bool) (model : Nat) (doc : Option HtmlElement) : DatepickerState :=
  { _opened := false
    _touchUi := touchUi
    _disabled := none
    _datepickerInput := none
    _popupRef := none
    _dialogRef := none
    _popupComponentRef := none
    _focusedElementBeforeOpen := none
    _documentActiveElement := doc
    _model := model
    nextHandle := 0
    liveOverlays := []
    liveDialogs := []
    popupConfig := none }

/-- The atomic steps a sequence of `open()`/`close()` calls can generate:
the two calls themselves, the firing of the exit-animation-done
subscription (which runs `_destroyPopup`), and the firing of the
`setTimeout(completeClose)` continuation. -/
inductive Action where
  | openCall : Action
  | closeCall : Action
  | animationDone : Action
  | closeTimeout : Action
deriving DecidableEq, Repr

/-- Apply one atomic step to the state. The asynchronous continuations are
over-approximated: `animationDone` and `closeTimeout` may fire at any
time, which includes every firing the real subscriptions can produce. -/
def applyAction (s : DatepickerState) : Action → StepResult
  | Action.openCall => «open» s
  | Action.closeCall => close s
  | Action.animationDone =>
      let (s1, evs) := _destroyPopup s
      { state := s1, events := evs, thrown := none, deferredCompleteClose := false }
  | Action.closeTimeout =>
      let (s1, evs) := completeClose s
      { state := s1, events := evs, thrown := none, deferredCompleteClose := false }

/-- Handle bookkeeping invariant: the ghost lists of live overlay/dialog
handles coincide with the stored references, and the presentation mode
selected by `touchUi` never has a handle of the other kind. -/
def handlesInv (s : DatepickerState) : Prop :=
  s.liveOverlays = s._popupRef.toList ∧
  s.liveDialogs = s._dialogRef.toList ∧
  (s._touchUi = true → s._popupRef = none) ∧
  (s._touchUi = false → s._dialogRef = none)

instance (s : DatepickerState) : Decidable (handlesInv s) := by
  unfold handlesInv; infer_instance

/-- Number of live popup/dialog handles. -/
def liveHandleCount (s : DatepickerState) : Nat :=
  s.liveOverlays.length + s.liveDialogs.length

end MatDatepickerBase

namespace MatDatepickerBase

lemma open_of_opened (s : DatepickerState) (h : s._opened = true) :
    «open» s = { state := s, events := [], thrown := none, deferredCompleteClose := false } := by
  simp [«open», h]

lemma open_of_disabled (s : DatepickerState) (h : disabled s = true) :
    «open» s = { state := s, events := [], thrown := none, deferredCompleteClose := false } := by
  simp [«open», h]

lemma open_of_no_input (s : DatepickerState) (h1 : s._opened = false)
    (h2 : disabled s = false) (h3 : s._datepickerInput = none) :
    «open» s = { state := s, events := [], thrown := some openNoInputMsg,
                 deferredCompleteClose := false } := by
  simp [«open», h1, h2, h3]

lemma open_success (s : DatepickerState) (input : MatDatepickerControl)
    (h1 : s._opened = false) (h2 : disabled s = false)
    (h3 : s._datepickerInput = some input) :
    «open» s =
      { state := { (if (recordFocusedElement s)._touchUi then
              _openAsDialog (recordFocusedElement s)
            else _openAsPopup input (recordFocusedElement s)).1 with _opened := true }
        events := (if (recordFocusedElement s)._touchUi then
              _openAsDialog (recordFocusedElement s)
            else _openAsPopup input (recordFocusedElement s)).2 ++ [DatepickerEvent.openedEmit]
        thrown := none
        deferredCompleteClose := false } := by
  simp [«open», h1, h2, h3]

lemma close_of_closed (s : DatepickerState) (h : s._opened = false) :
    close s = { state := s, events := [], thrown := none, deferredCompleteClose := false } := by
  simp [close, h]

lemma recordFocusedElement_touchUi (s : DatepickerState) :
    (recordFocusedElement s)._touchUi = s._touchUi := by
  unfold recordFocusedElement; split <;> rfl

lemma recordFocusedElement_popupRef (s : DatepickerState) :
    (recordFocusedElement s)._popupRef = s._popupRef := by
  unfold recordFocusedElement; split <;> rfl

lemma recordFocusedElement_dialogRef (s : DatepickerState) :
    (recordFocusedElement s)._dialogRef = s._dialogRef := by
  unfold recordFocusedElement; split <;> rfl

lemma recordFocusedElement_popupComponentRef (s : DatepickerState) :
    (recordFocusedElement s)._popupComponentRef = s._popupComponentRef := by
  unfold recordFocusedElement; split <;> rfl

lemma recordFocusedElement_liveOverlays (s : DatepickerState) :
    (recordFocusedElement s).liveOverlays = s.liveOverlays := by
  unfold recordFocusedElement; split <;> rfl

lemma recordFocusedElement_liveDialogs (s : DatepickerState) :
    (recordFocusedElement s).liveDialogs = s.liveDialogs := by
  unfold recordFocusedElement; split <;> rfl

lemma recordFocusedElement_of_doc (s : DatepickerState) (el : HtmlElement)
    (h : s._documentActiveElement = some el) :
    (recordFocusedElement s)._focusedElementBeforeOpen = some el := by
  unfold recordFocusedElement; rw [h]

lemma openAsDialog_popupRef (s : DatepickerState) :
    (_openAsDialog s).1._popupRef = s._popupRef := by
  unfold _openAsDialog _closeExistingDialog; split <;> rfl

lemma openAsDialog_popupComponentRef (s : DatepickerState) :
    (_openAsDialog s).1._popupComponentRef = s._popupComponentRef := by
  unfold _openAsDialog _closeExistingDialog; split <;> rfl

lemma openAsDialog_dialogRef_isSome (s : DatepickerState) :
    ((_openAsDialog s).1._dialogRef).isSome = true := by
  unfold _openAsDialog _closeExistingDialog; split <;> rfl

lemma openAsDialog_liveOverlays (s : DatepickerState) :
    (_openAsDialog s).1.liveOverlays = s.liveOverlays := by
  unfold _openAsDialog _closeExistingDialog; split <;> rfl

lemma openAsDialog_touchUi (s : DatepickerState) :
    (_openAsDialog s).1._touchUi = s._touchUi := by
  unfold _openAsDialog _closeExistingDialog; split <;> rfl

lemma openAsDialog_no_popupCreated (s : DatepickerState) (h : Nat) :
    DatepickerEvent.popupCreated h ∉ (_openAsDialog s).2 := by
  unfold _openAsDialog _closeExistingDialog; split <;> simp

lemma openAsPopup_popupRef_isSome (input : MatDatepickerControl) (s : DatepickerState) :
    ((_openAsPopup input s).1._popupRef).isSome = true := by
  unfold _openAsPopup _createPopup _destroyPopup; split <;> rfl

lemma openAsPopup_popupComponentRef_isSome (input : MatDatepickerControl)
    (s : DatepickerState) :
    ((_openAsPopup input s).1._popupComponentRef).isSome = true := by
  unfold _openAsPopup _createPopup _destroyPopup; split <;> rfl

lemma openAsPopup_dialogRef (input : MatDatepickerControl) (s : DatepickerState) :
    (_openAsPopup input s).1._dialogRef = s._dialogRef := by
  unfold _openAsPopup _createPopup _destroyPopup; split <;> rfl

lemma openAsPopup_liveDialogs (input : MatDatepickerControl) (s : DatepickerState) :
    (_openAsPopup input s).1.liveDialogs = s.liveDialogs := by
  unfold _openAsPopup _createPopup _destroyPopup; split <;> rfl

lemma openAsPopup_touchUi (input : MatDatepickerControl) (s : DatepickerState) :
    (_openAsPopup input s).1._touchUi = s._touchUi := by
  unfold _openAsPopup _createPopup _destroyPopup; split <;> rfl

lemma openAsPopup_no_dialogOpened (input : MatDatepickerControl) (s : DatepickerState)
    (h : Nat) : DatepickerEvent.dialogOpened h ∉ (_openAsPopup input s).2 := by
  unfold _openAsPopup _createPopup _destroyPopup; split <;> simp

end MatDatepickerBase

namespace MatDatepickerBase

/-- A concrete datepicker input used in witnesses. -/
def sampleInput : MatDatepickerControl :=
  { ctrlId := 1, disabled := false, connectedOverlayOrigin := 42 }

/-- A concrete focusable element used in witnesses. -/
def sampleElem : HtmlElement := { elemId := 7, hasFocusFn := true }

/-- A closed, enabled, non-touch datepicker with a registered input and an
active document element: the normal state right before `open()`. -/
def sReady : DatepickerState :=
  { mkDatepicker false 0 (some sampleElem) with _datepickerInput := some sampleInput }

/-- A touch-mode variant of `sReady`. -/
def sReadyTouch : DatepickerState :=
  { mkDatepicker true 0 (some sampleElem) with _datepickerInput := some sampleInput }

/-- An instance already marked open. -/
def sAlreadyOpen : DatepickerState := { mkDatepicker false 0 none with _opened := true }

/-- A disabled instance with no registered input. -/
def sDisabledNoInput : DatepickerState :=
  { mkDatepicker false 0 none with _disabled := some true }

/-- C1: on an already-open or disabled datepicker, `open()` is a no-op —
the state (opened flag, popup/dialog handles, recorded previously-focused
element) is unchanged, nothing is thrown and no event (in particular no
`opened` emission) occurs — and after any non-throwing `open()`, a second
`open()` is a no-op, so opening twice in succession is idempotent. -/
theorem c1_open_noop_and_idempotent (s : DatepickerState) :
    (s._opened = true ∨ disabled s = true →
      «open» s = { state := s, events := [], thrown := none,
                   deferredCompleteClose := false }) ∧
    ((«open» s).thrown = none →
      «open» ((«open» s).state) =
        { state := («open» s).state, events := [], thrown := none,
          deferredCompleteClose := false }) := by
  constructor
  · rintro (h | h)
    · exact open_of_opened s h
    · exact open_of_disabled s h
  · intro hthrown
    by_cases h1 : s._opened = true
    · rw [open_of_opened s h1]
      exact open_of_opened s h1
    · by_cases h2 : disabled s = true
      · rw [open_of_disabled s h2]
        exact open_of_disabled s h2
      · have h1' : s._opened = false := by simpa using h1
        have h2' : disabled s = false := by simpa using h2
        cases hin : s._datepickerInput with
        | none =>
            rw [open_of_no_input s h1' h2' hin] at hthrown
            simp at hthrown
        | some input =>
            have hopen : ((«open» s).state)._opened = true := by
              rw [open_success s input h1' h2' hin]
            exact open_of_opened _ hopen

/-- Witness for C1: `open()` on a concrete already-open instance changes
nothing and emits nothing. -/
theorem c1_open_noop_and_idempotent_witness :
    «open» sAlreadyOpen =
      { state := sAlreadyOpen, events := [], thrown := none,
        deferredCompleteClose := false } :=
  (c1_open_noop_and_idempotent sAlreadyOpen).1 (Or.inl rfl)

/-- C2 counterexample: a disabled datepicker with no registered input is
hit by the `this._opened || this.disabled` guard first, so `open()`
returns silently — it does not throw, contradicting the claim that
`open()` with no registered input always fails by throwing. -/
theorem c2_counterexample :
    sDisabledNoInput._datepickerInput = none ∧
    «open» sDisabledNoInput =
      { state := sDisabledNoInput, events := [], thrown := none,
        deferredCompleteClose := false } :=
  ⟨rfl, open_of_disabled sDisabledNoInput rfl⟩

/-- C2 (amended): on a datepicker that is not already open and not
disabled, `open()` with no registered input throws
`openNoInputMsg` and leaves the whole state (and event streams)
unchanged. -/
theorem c2_open_without_input_throws (s : DatepickerState)
    (h1 : s._opened = false) (h2 : disabled s = false)
    (h3 : s._datepickerInput = none) :
    «open» s = { state := s, events := [], thrown := some openNoInputMsg,
                 deferredCompleteClose := false } :=
  open_of_no_input s h1 h2 h3

/-- Witness for C2 (amended) at a fresh datepicker with no input. -/
theorem c2_open_without_input_throws_witness :
    «open» (mkDatepicker false 0 none) =
      { state := mkDatepicker false 0 none, events := [],
        thrown := some openNoInputMsg, deferredCompleteClose := false } :=
  c2_open_without_input_throws (mkDatepicker false 0 none) rfl rfl rfl

/-- C3: `close()` on a datepicker that is not open is a no-op: the state is
unchanged, nothing is thrown (the double close is silently ignored) and no
event — in particular no `closed` emission — occurs. -/
theorem c3_close_noop_when_closed (s : DatepickerState) (h : s._opened = false) :
    close s = { state := s, events := [], thrown := none,
                deferredCompleteClose := false } :=
  close_of_closed s h

/-- Witness for C3 at a fresh (closed) datepicker. -/
theorem c3_close_noop_when_closed_witness :
    close (mkDatepicker false 0 none) =
      { state := mkDatepicker false 0 none, events := [], thrown := none,
        deferredCompleteClose := false } :=
  c3_close_noop_when_closed (mkDatepicker false 0 none) rfl

/-- C7: a first `_registerInput` stores the input and returns the shared
selection model without throwing; registering when an input is already
registered throws `registerSecondInputMsg`, returns no model, and
leaves the originally registered input (and the whole state) in place. -/
theorem c7_register_second_input_throws (s : DatepickerState)
    (input : MatDatepickerControl) :
    (s._datepickerInput = none →
      _registerInput s input =
        ({ s with _datepickerInput := some input }, some s._model, none)) ∧
    (∀ i0 : MatDatepickerControl, s._datepickerInput = some i0 →
      _registerInput s input = (s, none, some registerSecondInputMsg) ∧
      ((_registerInput s input).1)._datepickerInput = some i0) := by
  constructor
  · intro h
    simp [_registerInput, h]
  · intro i0 h
    refine ⟨by simp [_registerInput, h], ?_⟩
    simp [_registerInput, h]

/-- Witness for C7: registering a second input on `sReady` throws and
keeps the original input. -/
theorem c7_register_second_input_throws_witness :
    _registerInput sReady { ctrlId := 2, disabled := false, connectedOverlayOrigin := 9 } =
      (sReady, none, some registerSecondInputMsg) ∧
    ((_registerInput sReady
        { ctrlId := 2, disabled := false, connectedOverlayOrigin := 9 }).1)._datepickerInput =
      some sampleInput :=
  (c7_register_second_input_throws sReady
    { ctrlId := 2, disabled := false, connectedOverlayOrigin := 9 }).2 sampleInput rfl

/-- C10: writing the `opened` property dispatches exactly to the methods:
assigning `true` is `open()` and assigning `false` is `close()`, with the
same no-op guards (already open / already closed) and the same thrown
error when opening with no registered input. -/
theorem c10_opened_setter_equiv (s : DatepickerState) :
    setOpened s true = «open» s ∧
    setOpened s false = close s ∧
    (s._opened = true →
      setOpened s true = { state := s, events := [], thrown := none,
                           deferredCompleteClose := false }) ∧
    (s._opened = false →
      setOpened s false = { state := s, events := [], thrown := none,
                            deferredCompleteClose := false }) ∧
    (s._opened = false → disabled s = false → s._datepickerInput = none →
      (setOpened s true).thrown = some openNoInputMsg) := by
  refine ⟨rfl, rfl, ?_, ?_, ?_⟩
  · intro h
    exact open_of_opened s h
  · intro h
    exact close_of_closed s h
  · intro h1 h2 h3
    show ((«open» s)).thrown = some openNoInputMsg
    rw [open_of_no_input s h1 h2 h3]

/-- Witness for C10: on a concrete already-open instance, `opened := true`
is the same no-op as `open()`. -/
theorem c10_opened_setter_equiv_witness :
    setOpened sAlreadyOpen true =
      { state := sAlreadyOpen, events := [], thrown := none,
        deferredCompleteClose := false } :=
  (c10_opened_setter_equiv sAlreadyOpen).2.2.1 rfl

end MatDatepickerBase

namespace MatDatepickerBase

/-- C4: when `open()` succeeds, the `touchUi` flag fully determines the
presentation: in touch mode a dialog handle is set and no popup overlay is
created (popup references are untouched), otherwise a popup overlay and a
popup content component are set and no dialog is created (the dialog
reference is untouched). -/
theorem c4_touchUi_routes_presentation (s : DatepickerState)
    (input : MatDatepickerControl) (h1 : s._opened = false)
    (h2 : disabled s = false) (h3 : s._datepickerInput = some input) :
    («open» s).thrown = none ∧
    ((«open» s).state)._opened = true ∧
    (s._touchUi = true →
      (((«open» s).state)._dialogRef).isSome = true ∧
      ((«open» s).state)._popupRef = s._popupRef ∧
      ((«open» s).state)._popupComponentRef = s._popupComponentRef ∧
      ∀ h : Nat, DatepickerEvent.popupCreated h ∉ («open» s).events) ∧
    (s._touchUi = false →
      (((«open» s).state)._popupRef).isSome = true ∧
      (((«open» s).state)._popupComponentRef).isSome = true ∧
      ((«open» s).state)._dialogRef = s._dialogRef ∧
      ∀ h : Nat, DatepickerEvent.dialogOpened h ∉ («open» s).events) := by
  rw [open_success s input h1 h2 h3]
  cases ht : s._touchUi with
  | true =>
      simp [recordFocusedElement_touchUi, ht, openAsDialog_dialogRef_isSome,
            openAsDialog_popupRef, openAsDialog_popupComponentRef,
            recordFocusedElement_popupRef, recordFocusedElement_popupComponentRef,
            openAsDialog_no_popupCreated]
  | false =>
      simp [recordFocusedElement_touchUi, ht, openAsPopup_popupRef_isSome,
            openAsPopup_popupComponentRef_isSome, openAsPopup_dialogRef,
            recordFocusedElement_dialogRef, openAsPopup_no_dialogOpened]

/-- Witness for C4: opening the concrete touch-mode instance `sReadyTouch`
yields a dialog and no popup. -/
theorem c4_touchUi_routes_presentation_witness :
    (((«open» sReadyTouch).state)._dialogRef).isSome = true ∧
    ((«open» sReadyTouch).state)._popupRef = sReadyTouch._popupRef ∧
    ((«open» sReadyTouch).state)._popupComponentRef = sReadyTouch._popupComponentRef ∧
    ∀ h : Nat, DatepickerEvent.popupCreated h ∉ («open» sReadyTouch).events :=
  (c4_touchUi_routes_presentation sReadyTouch sampleInput rfl rfl rfl).2.2.1 rfl

end MatDatepickerBase

namespace MatDatepickerBase

/-- The "bottom-start" placement: panel below the anchor, start-aligned. -/
def bottomStartPlacement : ConnectedPosition :=
  { originX := "start", originY := "bottom", overlayX := "start", overlayY := "top" }

/-- The "top-start" placement: panel above the anchor, start-aligned. -/
def topStartPlacement : ConnectedPosition :=
  { originX := "start", originY := "top", overlayX := "start", overlayY := "bottom" }

/-- The "bottom-end" placement: panel below the anchor, end-aligned. -/
def bottomEndPlacement : ConnectedPosition :=
  { originX := "end", originY := "bottom", overlayX := "end", overlayY := "top" }

/-- The "top-end" placement: panel above the anchor, end-aligned. -/
def topEndPlacement : ConnectedPosition :=
  { originX := "end", originY := "top", overlayX := "end", overlayY := "bottom" }

/-- Whether an event is the scheduling of the one-shot position
re-measurement (`onStable ... take(1) ... updatePosition()`). -/
def isScheduledUpdatePosition : DatepickerEvent → Bool
  | DatepickerEvent.scheduledUpdatePositionOnStable _ => true
  | _ => false

lemma openAsPopup_popupConfig (input : MatDatepickerControl) (s : DatepickerState) :
    (_openAsPopup input s).1.popupConfig =
      some { positionStrategy := _createPopupPositionStrategy input
             hasBackdrop := true
             backdropCssClass := "mat-overlay-transparent-backdrop"
             panelCssClass := "mat-datepicker-popup" } := by
  unfold _openAsPopup _createPopup _destroyPopup
  split <;> rfl

lemma openAsPopup_countP_scheduled (input : MatDatepickerControl) (s : DatepickerState) :
    ((_openAsPopup input s).2).countP (fun e => isScheduledUpdatePosition e) = 1 := by
  unfold _openAsPopup _createPopup _destroyPopup
  split <;>
    simp [List.countP_append, List.countP_cons, isScheduledUpdatePosition]

lemma openAsPopup_scheduled_for_new_popup (input : MatDatepickerControl)
    (s : DatepickerState) :
    DatepickerEvent.scheduledUpdatePositionOnStable
        (((_openAsPopup input s).1._popupRef).getD 0) ∈ (_openAsPopup input s).2 := by
  unfold _openAsPopup _createPopup _destroyPopup
  split <;> simp

/-- C8: a popup created by a successful non-touch `open()` uses a position
strategy anchored at the registered input's connected overlay origin, with
transform origin on the content panel, non-flexible dimensions, an 8-unit
viewport margin, a locked position, and exactly the four fallback
placements bottom-start, top-start, bottom-end, top-end in that order; and
the events of that `open()` schedule the stabilization-driven position
re-measurement exactly once, for the popup overlay that was attached. -/
theorem c8_popup_position_strategy (s : DatepickerState)
    (input : MatDatepickerControl) (h1 : s._opened = false)
    (h2 : disabled s = false) (h3 : s._datepickerInput = some input)
    (ht : s._touchUi = false) :
    ((«open» s).state).popupConfig =
      some { positionStrategy :=
               { origin := input.connectedOverlayOrigin
                 transformOriginOn := ".mat-datepicker-content"
                 flexibleDimensions := false
                 viewportMargin := 8
                 lockedPosition := true
                 positions := [bottomStartPlacement, topStartPlacement,
                               bottomEndPlacement, topEndPlacement] }
             hasBackdrop := true
             backdropCssClass := "mat-overlay-transparent-backdrop"
             panelCssClass := "mat-datepicker-popup" } ∧
    ((«open» s).events).countP (fun e => isScheduledUpdatePosition e) = 1 ∧
    DatepickerEvent.scheduledUpdatePositionOnStable
        ((((«open» s).state)._popupRef).getD 0) ∈ («open» s).events := by
  rw [open_success s input h1 h2 h3]
  refine ⟨?_, ?_, ?_⟩
  · simp [recordFocusedElement_touchUi, ht, openAsPopup_popupConfig,
          _createPopupPositionStrategy, bottomStartPlacement, topStartPlacement,
          bottomEndPlacement, topEndPlacement]
  · simp only [recordFocusedElement_touchUi, ht, Bool.false_eq_true, if_false,
               StepResult.events, List.countP_append, List.countP_cons,
               List.countP_nil, openAsPopup_countP_scheduled]
    simp [isScheduledUpdatePosition]
  · simp only [recordFocusedElement_touchUi, ht, Bool.false_eq_true, if_false,
               StepResult.events, StepResult.state, List.mem_append]
    exact Or.inl (openAsPopup_scheduled_for_new_popup input (recordFocusedElement s))

/-- Witness for C8: the popup opened from the concrete state `sReady` is
anchored at `sampleInput`'s overlay origin with the four placements, and
one position re-measurement is scheduled. -/
theorem c8_popup_position_strategy_witness :
    ((«open» sReady).state).popupConfig =
      some { positionStrategy :=
               { origin := sampleInput.connectedOverlayOrigin
                 transformOriginOn := ".mat-datepicker-content"
                 flexibleDimensions := false
                 viewportMargin := 8
                 lockedPosition := true
                 positions := [bottomStartPlacement, topStartPlacement,
                               bottomEndPlacement, topEndPlacement] }
             hasBackdrop := true
             backdropCssClass := "mat-overlay-transparent-backdrop"
             panelCssClass := "mat-datepicker-popup" } ∧
    ((«open» sReady).events).countP (fun e => isScheduledUpdatePosition e) = 1 ∧
    DatepickerEvent.scheduledUpdatePositionOnStable
        ((((«open» sReady).state)._popupRef).getD 0) ∈ («open» sReady).events :=
  c8_popup_position_strategy sReady sampleInput rfl rfl rfl rfl

end MatDatepickerBase

namespace MatDatepickerBase

lemma openAsDialog_focusedElement (s : DatepickerState) :
    (_openAsDialog s).1._focusedElementBeforeOpen = s._focusedElementBeforeOpen := by
  unfold _openAsDialog _closeExistingDialog
  split <;> rfl

lemma openAsPopup_focusedElement (input : MatDatepickerControl) (s : DatepickerState) :
    (_openAsPopup input s).1._focusedElementBeforeOpen = s._focusedElementBeforeOpen := by
  unfold _openAsPopup _createPopup _destroyPopup
  split <;> rfl

lemma open_state_focusedElement (s : DatepickerState) (input : MatDatepickerControl)
    (el : HtmlElement) (h1 : s._opened = false) (h2 : disabled s = false)
    (h3 : s._datepickerInput = some input) (h4 : s._documentActiveElement = some el) :
    ((«open» s).state)._focusedElementBeforeOpen = some el := by
  rw [open_success s input h1 h2 h3]
  cases ht : s._touchUi with
  | true =>
      simp [recordFocusedElement_touchUi, ht, openAsDialog_focusedElement,
            recordFocusedElement_of_doc s el h4]
  | false =>
      simp [recordFocusedElement_touchUi, ht, openAsPopup_focusedElement,
            recordFocusedElement_of_doc s el h4]

lemma open_state_opened (s : DatepickerState) (input : MatDatepickerControl)
    (h1 : s._opened = false) (h2 : disabled s = false)
    (h3 : s._datepickerInput = some input) :
    ((«open» s).state)._opened = true := by
  rw [open_success s input h1 h2 h3]

lemma closeOwnDialog_focusedElement (s : DatepickerState) :
    (_closeOwnDialog s).1._focusedElementBeforeOpen = s._focusedElementBeforeOpen := by
  unfold _closeOwnDialog
  split <;> rfl

lemma closeOwnDialog_opened (s : DatepickerState) :
    (_closeOwnDialog s).1._opened = s._opened := by
  unfold _closeOwnDialog
  split <;> rfl

lemma closeOwnDialog_no_closedEmit (s : DatepickerState) :
    DatepickerEvent.closedEmit ∉ (_closeOwnDialog s).2 := by
  unfold _closeOwnDialog
  split <;> simp

/-- `close()` on an open datepicker whose recorded previously-focused
element has a `focus` function: the exit animation / dialog close effects
run, `focus()` is called on that element as the last synchronous effect,
and `completeClose` is deferred with `setTimeout`. -/
lemma close_of_open_focusable (s : DatepickerState) (el : HtmlElement)
    (ho : s._opened = true) (hf : s._focusedElementBeforeOpen = some el)
    (hfn : el.hasFocusFn = true) :
    close s =
      { state := (_closeOwnDialog s).1
        events := (if s._popupComponentRef.isSome && s._popupRef.isSome then
              [DatepickerEvent.exitAnimationStarted]
            else []) ++ (_closeOwnDialog s).2 ++
            [DatepickerEvent.focusRestored el.elemId]
        thrown := none
        deferredCompleteClose := true } := by
  have hf' : (_closeOwnDialog s).1._focusedElementBeforeOpen = some el := by
    rw [closeOwnDialog_focusedElement]
    exact hf
  simp [close, ho, hf', hfn]

/-- C5: after a successful `open()` that recorded the document's active
element `el`, calling `close()` calls `focus()` on `el` as its last
synchronous event, no `closed` emission happens synchronously and the
instance is still marked open; the close-state finalization is deferred
(`deferredCompleteClose`), and when that deferred `completeClose` tick runs
it marks the instance closed, emits exactly the `closed` notification and
clears the recorded element. -/
theorem c5_close_restores_focus_then_defers (s : DatepickerState)
    (input : MatDatepickerControl) (el : HtmlElement)
    (h1 : s._opened = false) (h2 : disabled s = false)
    (h3 : s._datepickerInput = some input)
    (h4 : s._documentActiveElement = some el) (h5 : el.hasFocusFn = true) :
    ((«open» s).state)._focusedElementBeforeOpen = some el ∧
    DatepickerEvent.focusRestored el.elemId ∈ (close ((«open» s).state)).events ∧
    ((close ((«open» s).state)).events).getLast? =
      some (DatepickerEvent.focusRestored el.elemId) ∧
    (close ((«open» s).state)).deferredCompleteClose = true ∧
    ((close ((«open» s).state)).state)._opened = true ∧
    DatepickerEvent.closedEmit ∉ (close ((«open» s).state)).events ∧
    (completeClose ((close ((«open» s).state)).state)).2 =
      [DatepickerEvent.closedEmit] ∧
    ((completeClose ((close ((«open» s).state)).state)).1)._opened = false ∧
    ((completeClose ((close ((«open» s).state)).state)).1)._focusedElementBeforeOpen =
      none := by
  set s1 := («open» s).state with hs1
  have ho : s1._opened = true := open_state_opened s input h1 h2 h3
  have hf : s1._focusedElementBeforeOpen = some el :=
    open_state_focusedElement s input el h1 h2 h3 h4
  have hc := close_of_open_focusable s1 el ho hf h5
  have hdo : (_closeOwnDialog s1).1._opened = true := by
    rw [closeOwnDialog_opened]
    exact ho
  refine ⟨hf, ?_, ?_, ?_, ?_, ?_, ?_, ?_, ?_⟩
  · rw [hc]
    simp
  · rw [hc]
    simp
  · rw [hc]
  · rw [hc]
    exact hdo
  · rw [hc]
    intro hmem
    simp only [StepResult.events, List.mem_append, List.mem_singleton] at hmem
    rcases hmem with (hmem | hmem) | hmem
    · revert hmem
      split <;> simp
    · exact closeOwnDialog_no_closedEmit s1 hmem
    · exact absurd hmem (by simp)
  · rw [hc]
    simp [completeClose, hdo]
  · rw [hc]
    simp [completeClose, hdo]
  · rw [hc]
    simp [completeClose, hdo]

/-- Witness for C5 at the concrete ready state `sReady` and element
`sampleElem`. -/
theorem c5_close_restores_focus_then_defers_witness :
    DatepickerEvent.focusRestored sampleElem.elemId ∈
      (close ((«open» sReady).state)).events ∧
    (close ((«open» sReady).state)).deferredCompleteClose = true ∧
    DatepickerEvent.closedEmit ∉ (close ((«open» sReady).state)).events ∧
    (completeClose ((close ((«open» sReady).state)).state)).2 =
      [DatepickerEvent.closedEmit] := by
  have h := c5_close_restores_focus_then_defers sReady sampleInput sampleElem
    rfl rfl rfl rfl rfl
  exact ⟨h.2.1, h.2.2.2.1, h.2.2.2.2.2.1, h.2.2.2.2.2.2.1⟩

end MatDatepickerBase

namespace MatDatepickerBase

/-- C6: the merged popup subscription maps each dismissal trigger to
`close()` — a backdrop click and a passing keydown first call
`preventDefault()` on the (truthy) event, a detachment (whose emitted
value is `undefined`) calls `close()` directly; the keydown filter passes
exactly Escape, or Alt+Up when an input is registered; every other keydown
is filtered out and neither closes nor touches the state. -/
theorem c6_popup_dismissal_triggers (s : DatepickerState) :
    (_popupStreamHandler s DismissalTrigger.backdropClick =
      { close s with
          events := DatepickerEvent.preventDefault :: (close s).events }) ∧
    (_popupStreamHandler s DismissalTrigger.detachment = close s) ∧
    (∀ alt : Bool, _popupStreamHandler s (DismissalTrigger.keydown ESCAPE alt) =
      { close s with
          events := DatepickerEvent.preventDefault :: (close s).events }) ∧
    (s._datepickerInput.isSome = true →
      _popupStreamHandler s (DismissalTrigger.keydown UP_ARROW true) =
        { close s with
            events := DatepickerEvent.preventDefault :: (close s).events }) ∧
    (s._datepickerInput = none →
      ∀ (k : Nat) (alt : Bool), k ≠ ESCAPE →
        _popupStreamHandler s (DismissalTrigger.keydown k alt) =
          { state := s, events := [], thrown := none,
            deferredCompleteClose := false }) ∧
    (∀ (k : Nat) (alt : Bool), k ≠ ESCAPE →
      ¬(s._datepickerInput.isSome = true ∧ alt = true ∧ k = UP_ARROW) →
      _popupStreamHandler s (DismissalTrigger.keydown k alt) =
        { state := s, events := [], thrown := none,
          deferredCompleteClose := false }) := by
  have hreject : ∀ (k : Nat) (alt : Bool), k ≠ ESCAPE →
      ¬(s._datepickerInput.isSome = true ∧ alt = true ∧ k = UP_ARROW) →
      popupKeydownClosesPicker s k alt = false := by
    intro k alt hk hmatch
    unfold popupKeydownClosesPicker
    cases hke : k == ESCAPE with
    | true => exact absurd (by simpa using hke) hk
    | false =>
        cases hup : k == UP_ARROW with
        | true =>
            have hk2 : k = UP_ARROW := by simpa using hup
            cases hin : s._datepickerInput.isSome with
            | true =>
                cases halt : alt with
                | true => exact absurd ⟨hin, halt, hk2⟩ hmatch
                | false => simp [halt]
            | false => simp [hin]
        | false => simp [hup]
  refine ⟨rfl, rfl, ?_, ?_, ?_, ?_⟩
  · intro alt
    simp [_popupStreamHandler, popupKeydownClosesPicker]
  · intro hin
    simp [_popupStreamHandler, popupKeydownClosesPicker, hin, ESCAPE, UP_ARROW]
  · intro hin k alt hk
    have : popupKeydownClosesPicker s k alt = false := by
      refine hreject k alt hk ?_
      rintro ⟨hsome, -, -⟩
      rw [hin] at hsome
      simp at hsome
    simp [_popupStreamHandler, this]
  · intro k alt hk hmatch
    simp [_popupStreamHandler, hreject k alt hk hmatch]

/-- Witness for C6: on the concretely opened popup state, Alt+Up closes
(the input is registered) — producing the same result as `close()` with a
leading `preventDefault`. -/
theorem c6_popup_dismissal_triggers_witness :
    _popupStreamHandler ((«open» sReady).state) (DismissalTrigger.keydown UP_ARROW true) =
      { close ((«open» sReady).state) with
          events := DatepickerEvent.preventDefault ::
            (close ((«open» sReady).state)).events } :=
  (c6_popup_dismissal_triggers ((«open» sReady).state)).2.2.2.1 rfl

end MatDatepickerBase

namespace MatDatepickerBase

lemma inv_recordFocusedElement (s : DatepickerState) (hInv : handlesInv s) :
    handlesInv (recordFocusedElement s) := by
  obtain ⟨h1, h2, h3, h4⟩ := hInv
  unfold recordFocusedElement
  split
  · exact ⟨h1, h2, h3, h4⟩
  · exact ⟨h1, h2, h3, h4⟩

lemma inv_completeClose (s : DatepickerState) (hInv : handlesInv s) :
    handlesInv (completeClose s).1 := by
  obtain ⟨h1, h2, h3, h4⟩ := hInv
  unfold completeClose
  split
  · exact ⟨h1, h2, h3, h4⟩
  · exact ⟨h1, h2, h3, h4⟩

lemma inv_destroyPopup (s : DatepickerState) (hInv : handlesInv s) :
    handlesInv (_destroyPopup s).1 := by
  obtain ⟨h1, h2, h3, h4⟩ := hInv
  unfold _destroyPopup
  cases hpr : s._popupRef with
  | none => exact ⟨h1, h2, h3, h4⟩
  | some h =>
      refine ⟨?_, h2, ?_, h4⟩
      · show s.liveOverlays.erase h = (none : Option Nat).toList
        rw [h1, hpr]
        simp
      · intro _
        rfl

lemma inv_closeOwnDialog (s : DatepickerState) (hInv : handlesInv s) :
    handlesInv (_closeOwnDialog s).1 := by
  obtain ⟨h1, h2, h3, h4⟩ := hInv
  unfold _closeOwnDialog
  cases hdr : s._dialogRef with
  | none => exact ⟨h1, h2, h3, h4⟩
  | some h =>
      refine ⟨h1, ?_, h3, ?_⟩
      · show s.liveDialogs.erase h = (none : Option Nat).toList
        rw [h2, hdr]
        simp
      · intro _
        rfl

lemma inv_close (s : DatepickerState) (hInv : handlesInv s) :
    handlesInv (close s).state := by
  cases ho : s._opened with
  | false =>
      rw [close_of_closed s ho]
      exact hInv
  | true =>
      have hcd := inv_closeOwnDialog s hInv
      simp only [close, ho, Bool.not_true, Bool.false_eq_true, if_false]
      cases hfe : (_closeOwnDialog s).1._focusedElementBeforeOpen with
      | none => exact inv_completeClose _ hcd
      | some el =>
          cases hfn : el.hasFocusFn with
          | true =>
              simp only [hfn, if_true]
              exact hcd
          | false =>
              simp only [hfn, Bool.false_eq_true, if_false]
              exact inv_completeClose _ hcd

lemma inv_openAsDialog (s : DatepickerState) (hInv : handlesInv s)
    (ht : s._touchUi = true) : handlesInv (_openAsDialog s).1 := by
  obtain ⟨h1, h2, h3, h4⟩ := hInv
  unfold _openAsDialog _closeExistingDialog
  cases hdr : s._dialogRef with
  | none =>
      refine ⟨h1, ?_, ?_, ?_⟩
      · show s.liveDialogs ++ [s.nextHandle] = (some s.nextHandle).toList
        rw [h2, hdr]
        simp
      · intro _
        exact h3 ht
      · intro h'
        simp [ht] at h'
  | some h =>
      refine ⟨h1, ?_, ?_, ?_⟩
      · show s.liveDialogs.erase h ++ [s.nextHandle] = (some s.nextHandle).toList
        rw [h2, hdr]
        simp
      · intro _
        exact h3 ht
      · intro h'
        simp [ht] at h'

lemma inv_openAsPopup (input : MatDatepickerControl) (s : DatepickerState)
    (hInv : handlesInv s) (ht : s._touchUi = false) :
    handlesInv (_openAsPopup input s).1 := by
  obtain ⟨h1, h2, h3, h4⟩ := hInv
  unfold _openAsPopup _createPopup _destroyPopup
  cases hpr : s._popupRef with
  | none =>
      refine ⟨?_, h2, ?_, ?_⟩
      · show s.liveOverlays ++ [s.nextHandle] = (some s.nextHandle).toList
        rw [h1, hpr]
        simp
      · intro h'
        simp [ht] at h'
      · intro _
        exact h4 ht
  | some h =>
      refine ⟨?_, h2, ?_, ?_⟩
      · show s.liveOverlays.erase h ++ [s.nextHandle] = (some s.nextHandle).toList
        rw [h1, hpr]
        simp
      · intro h'
        simp [ht] at h'
      · intro _
        exact h4 ht

lemma inv_open (s : DatepickerState) (hInv : handlesInv s) :
    handlesInv («open» s).state := by
  by_cases h1 : s._opened = true
  · rw [open_of_opened s h1]
    exact hInv
  · by_cases h2 : disabled s = true
    · rw [open_of_disabled s h2]
      exact hInv
    · have h1' : s._opened = false := by simpa using h1
      have h2' : disabled s = false := by simpa using h2
      cases hin : s._datepickerInput with
      | none =>
          rw [open_of_no_input s h1' h2' hin]
          exact hInv
      | some input =>
          rw [open_success s input h1' h2' hin]
          have hrInv : handlesInv (recordFocusedElement s) :=
            inv_recordFocusedElement s hInv
          cases ht : s._touchUi with
          | true =>
              have hd := inv_openAsDialog (recordFocusedElement s) hrInv
                (by rw [recordFocusedElement_touchUi]; exact ht)
              simp only [recordFocusedElement_touchUi, ht, if_true]
              exact hd
          | false =>
              have hp := inv_openAsPopup input (recordFocusedElement s) hrInv
                (by rw [recordFocusedElement_touchUi]; exact ht)
              simp only [recordFocusedElement_touchUi, ht, Bool.false_eq_true, if_false]
              exact hp

lemma liveHandleCount_le_one (s : DatepickerState) (hInv : handlesInv s) :
    liveHandleCount s ≤ 1 := by
  obtain ⟨h1, h2, h3, h4⟩ := hInv
  unfold liveHandleCount
  rw [h1, h2]
  cases ht : s._touchUi with
  | true =>
      rw [h3 ht]
      cases s._dialogRef <;> simp
  | false =>
      rw [h4 ht]
      cases s._popupRef <;> simp

lemma destroyPopup_of_none (s : DatepickerState) (h : s._popupRef = none) :
    _destroyPopup s = (s, []) := by
  unfold _destroyPopup
  rw [h]

lemma destroyPopup_idem (s : DatepickerState) :
    _destroyPopup ((_destroyPopup s).1) = ((_destroyPopup s).1, []) := by
  cases hpr : s._popupRef with
  | none =>
      have h1 : _destroyPopup s = (s, []) := destroyPopup_of_none s hpr
      rw [h1]
      exact destroyPopup_of_none s hpr
  | some h =>
      have h1 : (_destroyPopup s).1._popupRef = none := by
        unfold _destroyPopup
        rw [hpr]
      exact destroyPopup_of_none _ h1

lemma openAsDialog_closes_existing_first (s : DatepickerState) (h : Nat)
    (hd : s._dialogRef = some h) :
    ((_openAsDialog s).2).head? = some (DatepickerEvent.dialogClosed h) := by
  unfold _openAsDialog _closeExistingDialog
  rw [hd]
  rfl

lemma openAsPopup_destroys_existing_first (input : MatDatepickerControl)
    (s : DatepickerState) (h : Nat) (hp : s._popupRef = some h) :
    ((_openAsPopup input s).2).head? = some (DatepickerEvent.popupDisposed h) := by
  unfold _openAsPopup _createPopup _destroyPopup
  rw [hp]
  rfl

/-- C9: at most one popup or dialog handle is live per instance. A fresh
instance satisfies the handle invariant; the invariant bounds the number
of live handles by one; every atomic step of an open()/close() sequence
(the calls plus the asynchronous continuations they schedule) preserves
it; popup disposal is idempotent; opening as a dialog first closes an
existing dialog; opening as a popup first disposes an existing popup. -/
theorem c9_at_most_one_live_handle :
    (∀ (t : Bool) (m : Nat) (doc : Option HtmlElement),
      handlesInv (mkDatepicker t m doc)) ∧
    (∀ s : DatepickerState, handlesInv s → liveHandleCount s ≤ 1) ∧
    (∀ (s : DatepickerState) (a : Action),
      handlesInv s → handlesInv ((applyAction s a).state)) ∧
    (∀ s : DatepickerState,
      _destroyPopup ((_destroyPopup s).1) = ((_destroyPopup s).1, [])) ∧
    (∀ (s : DatepickerState) (h : Nat), s._dialogRef = some h →
      ((_openAsDialog s).2).head? = some (DatepickerEvent.dialogClosed h)) ∧
    (∀ (input : MatDatepickerControl) (s : DatepickerState) (h : Nat),
      s._popupRef = some h →
      ((_openAsPopup input s).2).head? = some (DatepickerEvent.popupDisposed h)) := by
  refine ⟨?_, liveHandleCount_le_one, ?_, destroyPopup_idem,
          openAsDialog_closes_existing_first, openAsPopup_destroys_existing_first⟩
  · intro t m doc
    exact ⟨rfl, rfl, fun _ => rfl, fun _ => rfl⟩
  · intro s a hInv
    cases a with
    | openCall => exact inv_open s hInv
    | closeCall => exact inv_close s hInv
    | animationDone => exact inv_destroyPopup s hInv
    | closeTimeout => exact inv_completeClose s hInv

/-- Witness for C9: the concrete ready state satisfies the invariant, an
`open()` step preserves it and the resulting open state has at most one
live handle. -/
theorem c9_at_most_one_live_handle_witness :
    handlesInv sReady ∧
    handlesInv ((applyAction sReady Action.openCall).state) ∧
    liveHandleCount ((applyAction sReady Action.openCall).state) ≤ 1 := by
  have hInv : handlesInv sReady := by decide
  have hstep := c9_at_most_one_live_handle.2.2.1 sReady Action.openCall hInv
  exact ⟨hInv, hstep, c9_at_most_one_live_handle.2.1 _ hstep⟩

end MatDatepickerBase
